import Mathlib

/-!
Shallow embedding of the wash `ctl` module (src/ctl/mod.rs): connection
configuration resolution, auction-based placement for actor and provider
starts, link management, and manifest application.

Effectful collaborators (context loading, NATS connection establishment and
the control-interface RPCs) are passed in as explicit function-valued
environments.  Each control operation returns the list of control-interface
calls it issued, in issue order, together with its result, so that ordering
and "no call attempted" properties can be stated directly.

Durations are modelled as a count of milliseconds: the embedding of
`Duration::from_secs n` is `1000 * n` and of `Duration::from_millis n` is
`n`.
-/

namespace Wash

/-- Built-in default CTL host (doc comment on `ctl_host`,
src/ctl/mod.rs line 41: "defaults to 127.0.0.1 for local nats"). -/
def DEFAULT_NATS_HOST : String := "127.0.0.1"

/-- Built-in default CTL port (doc comment on `ctl_port`,
src/ctl/mod.rs line 45: "defaults to 4222 for local nats"). -/
def DEFAULT_NATS_PORT : String := "4222"

/-- Built-in default lattice namespace (doc comment on the field,
src/ctl/mod.rs line 62: "defaults to \x22default\x22"). -/
def DEFAULT_LATTICE_PFX : String := "default"

/-- Built-in default control-interface timeout in milliseconds (doc comment
on `timeout_ms`, src/ctl/mod.rs line 66: "defaults to 2000 milliseconds";
the same constant is the default auction window). -/
def DEFAULT_NATS_TIMEOUT : Nat := 2000

/-- Embedding of `Duration::from_secs`: the resulting duration in
milliseconds. -/
def durationFromSecsMs (s : Nat) : Nat := 1000 * s

/-- Embedding of `Duration::from_millis`: the resulting duration in
milliseconds. -/
def durationFromMillisMs (n : Nat) : Nat := n

/-- Modelled from the spec: the context record loaded by the `crate::ctx`
module (not under src/).  Per spec section 3, a ContextRecord is "a named
bundle of the same fields" as the connection configuration; the field shapes
match their uses in `ctl_client_from_opts` (src/ctl/mod.rs lines 911-953):
`ctl_timeout` and `ctl_port` are scalar, `ctl_jwt`, `ctl_seed` and
`ctl_credsfile` are optional.  The field `ctl_lattice_pfx` models the
source field named for the lattice namespace. -/
structure WashContext where
  ctl_host : String
  ctl_port : Nat
  ctl_jwt : Option String := none
  ctl_seed : Option String := none
  ctl_credsfile : Option String := none
  ctl_lattice_pfx : String
  ctl_timeout : Nat
deriving Repr, DecidableEq

/-- Embedding of `ConnectionOpts` (src/ctl/mod.rs lines 40-73): the explicit connection
flags; every field is optional.  `lattice_pfx` models the source field named
for the lattice namespace; `context` holds the path as a string. -/
structure ConnectionOpts where
  ctl_host : Option String := none
  ctl_port : Option String := none
  ctl_jwt : Option String := none
  ctl_seed : Option String := none
  ctl_credsfile : Option String := none
  lattice_pfx : Option String := none
  timeout_ms : Option Nat := none
  context : Option String := none
deriving Repr, DecidableEq

/-- Embedding of `impl Default for ConnectionOpts` (src/ctl/mod.rs lines 75-88). -/
def ConnectionOpts.default_impl : ConnectionOpts :=
  { ctl_host := some DEFAULT_NATS_HOST,
    ctl_port := some DEFAULT_NATS_PORT,
    ctl_jwt := none,
    ctl_seed := none,
    ctl_credsfile := none,
    lattice_pfx := some DEFAULT_LATTICE_PFX,
    timeout_ms := some DEFAULT_NATS_TIMEOUT,
    context := none }

/-- The connection parameters resolved by `ctl_client_from_opts` before the
NATS client is built. -/
structure ResolvedConn where
  timeout : Nat
  lattice_pfx : String
  ctl_host : String
  ctl_port : String
  ctl_jwt : Option String
  ctl_seed : Option String
  ctl_credsfile : Option String
deriving Repr, DecidableEq

/-- The per-field resolution block of `ctl_client_from_opts`
(src/ctl/mod.rs lines 908-953): explicitly provided flags first, then the
value from the resolved context, lastly the built-in default. -/
def resolve_conn (opts : ConnectionOpts) (ctx : Option WashContext) : ResolvedConn :=
  { timeout := opts.timeout_ms.getD ((ctx.map fun c => c.ctl_timeout).getD DEFAULT_NATS_TIMEOUT),
    lattice_pfx :=
      opts.lattice_pfx.getD ((ctx.map fun c => c.ctl_lattice_pfx).getD DEFAULT_LATTICE_PFX),
    ctl_host := opts.ctl_host.getD ((ctx.map fun c => c.ctl_host).getD DEFAULT_NATS_HOST),
    ctl_port := opts.ctl_port.getD ((ctx.map fun c => toString c.ctl_port).getD DEFAULT_NATS_PORT),
    ctl_jwt := if opts.ctl_jwt.isSome then opts.ctl_jwt
               else (ctx.map fun c => c.ctl_jwt).getD none,
    ctl_seed := if opts.ctl_seed.isSome then opts.ctl_seed
                else (ctx.map fun c => c.ctl_seed).getD none,
    ctl_credsfile := if opts.ctl_credsfile.isSome then opts.ctl_credsfile
                     else (ctx.map fun c => c.ctl_credsfile).getD none }

/-- The effectful collaborators of `ctl_client_from_opts`: the context
loaders of `crate::ctx` and the NATS connection constructor of
`crate::util` (both outside src/), passed in as an explicit environment.
`nats_client_from_opts` receives host, port, jwt, seed and credsfile. -/
structure CtlEnv where
  load_context : String → Except String WashContext
  context_dir : Except String String
  get_default_context : String → Except String WashContext
  nats_client_from_opts :
    String → String → Option String → Option String → Option String → Except String Unit

/-- Context selection of `ctl_client_from_opts` (src/ctl/mod.rs lines
899-906): an explicitly supplied context path is loaded and the Result is
turned into an Option with `.ok()`; otherwise the default context is looked
up best-effort; every failure falls through to `none`. -/
def ctxOf (opts : ConnectionOpts) (env : CtlEnv) : Option WashContext :=
  match opts.context with
  | some context => (env.load_context context).toOption
  | none =>
    match env.context_dir with
    | .ok ctx_dir => (env.get_default_context ctx_dir).toOption
    | .error _ => none

/-- The control client produced by `CtlClient::new(nc, Some(lattice_prefix),
Duration::from_secs(timeout))` (src/ctl/mod.rs lines 955-958), recording the
parameters handed to `nats_client_from_opts` and to the constructor.
`timeout_dur_ms` is the client response-timeout duration in milliseconds. -/
structure CtlClient where
  nats_host : String
  nats_port : String
  nats_jwt : Option String
  nats_seed : Option String
  nats_credsfile : Option String
  ns_pfx : Option String
  timeout_dur_ms : Nat
deriving Repr, DecidableEq

/-- The tail of `ctl_client_from_opts` after the context was selected:
resolve the fields, connect to NATS (fallible) and build the client. -/
def build_client (opts : ConnectionOpts) (ctx : Option WashContext) (env : CtlEnv) :
    Except String CtlClient :=
  let r := resolve_conn opts ctx
  match env.nats_client_from_opts r.ctl_host r.ctl_port r.ctl_jwt r.ctl_seed r.ctl_credsfile with
  | .error e => .error e
  | .ok _ =>
    .ok { nats_host := r.ctl_host,
          nats_port := r.ctl_port,
          nats_jwt := r.ctl_jwt,
          nats_seed := r.ctl_seed,
          nats_credsfile := r.ctl_credsfile,
          ns_pfx := some r.lattice_pfx,
          timeout_dur_ms := durationFromSecsMs r.timeout }

/-- Embedding of `ctl_client_from_opts` (src/ctl/mod.rs lines 898-961). -/
def ctl_client_from_opts (opts : ConnectionOpts) (env : CtlEnv) : Except String CtlClient :=
  build_client opts (ctxOf opts env) env

/-- Embedding of `CtlOperationAck` of the control interface: the uniform acknowledgement
of every mutating control operation. -/
structure CtlOperationAck where
  accepted : Bool
  error : String
deriving Repr, DecidableEq

/-- An auction response; only its `host_id` field is read by the source. -/
structure AuctionAck where
  host_id : String
deriving Repr, DecidableEq

/-- A control-interface call as issued on the wire, with its arguments. -/
inductive Call where
  | actorAuction (actor_ref : String) (constraints : List (String × String)) (window_ms : Nat)
  | providerAuction (provider_ref : String) (link_name : String)
      (constraints : List (String × String)) (window_ms : Nat)
  | startActor (host_id : String) (actor_ref : String)
  | startProvider (host_id : String) (provider_ref : String) (link_name : Option String)
  | advertiseLink (actor_id : String) (provider_id : String) (contract_id : String)
      (link_name : String) (values : List (String × String))
  | removeLink (actor_id : String) (contract_id : String) (link_name : String)
deriving Repr, DecidableEq

/-- The behaviour of the external control client: what each RPC returns.
Its interface mirrors the `wasmcloud_control_interface::Client` methods used
by the source; every call may fail with a transport error. -/
structure ClientBehavior where
  actorAuction :
    String → List (String × String) → Nat → Except String (List AuctionAck)
  providerAuction :
    String → String → List (String × String) → Nat → Except String (List AuctionAck)
  actorStart : String → String → Except String CtlOperationAck
  providerStart : String → String → Option String → Except String CtlOperationAck
  advertiseLink :
    String → String → String → String → List (String × String) →
      Except String CtlOperationAck
  removeLink : String → String → String → Except String CtlOperationAck

/-- Characters admissible in a public-key identifier (base32 alphabet). -/
def isIdChar (c : Char) : Bool :=
  c.isUpper || c == '2' || c == '3' || c == '4' || c == '5' || c == '6' || c == '7'

/-- Modelled from the spec: the shape check of the `id` module
(src/ctl/id.rs, not under src/).  Spec section 6: identifiers are "validated
public-key-shaped strings".  A server identifier is 56 base32 characters
beginning with the kind byte (as in the test constants of
src/ctl/mod.rs lines 988-990). -/
def is_public_key_shaped (pfx : Char) (s : String) : Bool :=
  match s.toList with
  | [] => false
  | c :: _ => s.length == 56 && c == pfx && s.toList.all isIdChar

/-- Modelled from the spec: `str::parse::<ServerId>` of the missing `id`
module.  Spec section 6: "malformed identifiers are rejected at parse time,
before any network call, with a parsing error naming the offending field";
a well-formed host id parses to itself (its `to_string`). -/
def server_id_parse (s : String) : Except String String :=
  if is_public_key_shaped 'N' s then .ok s else .error ("invalid server id: " ++ s)

/-- Split a character list at its first separator character. -/
def split_at_eq : List Char → Option (List Char × List Char)
  | [] => none
  | c :: rest =>
    if c = '=' then some ([], rest)
    else (split_at_eq rest).map fun p => (c :: p.1, p.2)

/-- Modelled from the spec: one "label=value" constraint string, as used by
`labels_vec_to_hashmap` of `crate::util` (not under src/).  Spec section 3:
a PlacementConstraint is "a mapping from label name to required value (set
of key=value pairs)"; a string without a separator is malformed. -/
def parse_label (s : String) : Except String (String × String) :=
  match split_at_eq s.toList with
  | none => .error ("invalid constraint: " ++ s)
  | some kv => .ok (String.mk kv.1, String.mk kv.2)

/-- Modelled from the spec: `labels_vec_to_hashmap` of `crate::util` (not
under src/), turning the "label=value" strings into a mapping; any malformed
entry fails the whole conversion. -/
def labels_vec_to_hashmap (xs : List String) : Except String (List (String × String)) :=
  xs.mapM parse_label

/-- The timeout override at the top of `start_actor` (src/ctl/mod.rs lines
652-661): when no explicit timeout is supplied, 15000 is substituted "to
account for OCI downloads and response". -/
def start_actor_opts (opts : ConnectionOpts) : ConnectionOpts :=
  if opts.timeout_ms.isNone then { opts with timeout_ms := some 15000 } else opts

/-- The timeout override at the top of `start_provider` (src/ctl/mod.rs
lines 690-699): when no explicit timeout is supplied, 60000 is
substituted. -/
def start_provider_opts (opts : ConnectionOpts) : ConnectionOpts :=
  if opts.timeout_ms.isNone then { opts with timeout_ms := some 60000 } else opts

/-- Embedding of `StartActorCommand` (src/ctl/mod.rs lines 291-314); `host_id` is an
already-validated server id string. -/
structure StartActorCommand where
  opts : ConnectionOpts := {}
  host_id : Option String := none
  actor_ref : String
  constraints : Option (List String) := none
  auction_timeout_ms : Option Nat := none
deriving Repr, DecidableEq

/-- Embedding of `start_actor` (src/ctl/mod.rs lines 651-687): build the client with the
overridden timeout, resolve the target host (explicit host, or actor
auction taking the first suitable host), then issue the start call.  The
first component is the list of control-interface calls issued, in order. -/
def start_actor (cmd : StartActorCommand) (env : CtlEnv) (cb : ClientBehavior) :
    List Call × Except String CtlOperationAck :=
  let opts := start_actor_opts cmd.opts
  match ctl_client_from_opts opts env with
  | .error e => ([], .error e)
  | .ok _client =>
    let hostRes : List Call × Except String String :=
      match cmd.host_id with
      | some host => ([], .ok host)
      | none =>
        match labels_vec_to_hashmap (cmd.constraints.getD []) with
        | .error e => ([], .error e)
        | .ok cons =>
          let window := durationFromMillisMs (cmd.auction_timeout_ms.getD DEFAULT_NATS_TIMEOUT)
          let auction := Call.actorAuction cmd.actor_ref cons window
          match cb.actorAuction cmd.actor_ref cons window with
          | .error e => ([auction], .error e)
          | .ok suitable_hosts =>
            match suitable_hosts with
            | [] => ([auction], .error ("No suitable hosts found for actor " ++ cmd.actor_ref))
            | first :: _ => ([auction], server_id_parse first.host_id)
    match hostRes with
    | (calls, .error e) => (calls, .error e)
    | (calls, .ok host) =>
      (calls ++ [Call.startActor host cmd.actor_ref], cb.actorStart host cmd.actor_ref)

/-- Embedding of `StartProviderCommand` (src/ctl/mod.rs lines 316-343); `link_name`
carries its CLI default "default". -/
structure StartProviderCommand where
  opts : ConnectionOpts := {}
  host_id : Option String := none
  provider_ref : String
  link_name : String := "default"
  constraints : Option (List String) := none
  auction_timeout_ms : Option Nat := none
deriving Repr, DecidableEq

/-- Embedding of `start_provider` (src/ctl/mod.rs lines 689-734): like `start_actor`,
with the provider auction and the provider start call. -/
def start_provider (cmd : StartProviderCommand) (env : CtlEnv) (cb : ClientBehavior) :
    List Call × Except String CtlOperationAck :=
  let opts := start_provider_opts cmd.opts
  match ctl_client_from_opts opts env with
  | .error e => ([], .error e)
  | .ok _client =>
    let hostRes : List Call × Except String String :=
      match cmd.host_id with
      | some host => ([], .ok host)
      | none =>
        match labels_vec_to_hashmap (cmd.constraints.getD []) with
        | .error e => ([], .error e)
        | .ok cons =>
          let window := durationFromMillisMs (cmd.auction_timeout_ms.getD DEFAULT_NATS_TIMEOUT)
          let auction := Call.providerAuction cmd.provider_ref cmd.link_name cons window
          match cb.providerAuction cmd.provider_ref cmd.link_name cons window with
          | .error e => ([auction], .error e)
          | .ok suitable_hosts =>
            match suitable_hosts with
            | [] =>
              ([auction], .error ("No suitable hosts found for provider " ++ cmd.provider_ref))
            | first :: _ => ([auction], server_id_parse first.host_id)
    match hostRes with
    | (calls, .error e) => (calls, .error e)
    | (calls, .ok host) =>
      (calls ++ [Call.startProvider host cmd.provider_ref (some cmd.link_name)],
       cb.providerStart host cmd.provider_ref (some cmd.link_name))

/-- Embedding of `LinkPutCommand` (src/ctl/mod.rs lines 198-225); the ids are
already-validated strings. -/
structure LinkPutCommand where
  opts : ConnectionOpts := {}
  actor_id : String
  provider_id : String
  contract_id : String
  link_name : Option String := none
  values : List String := []
deriving Repr, DecidableEq

/-- Embedding of `link_put` (src/ctl/mod.rs lines 632-644): advertise a link definition,
substituting the link name "default" when none was supplied; the values are
converted with `labels_vec_to_hashmap`, whose failure aborts before the
call. -/
def link_put (cmd : LinkPutCommand) (env : CtlEnv) (cb : ClientBehavior) :
    List Call × Except String CtlOperationAck :=
  match ctl_client_from_opts cmd.opts env with
  | .error e => ([], .error e)
  | .ok _client =>
    match labels_vec_to_hashmap cmd.values with
    | .error e => ([], .error e)
    | .ok vals =>
      let name := cmd.link_name.getD "default"
      ([Call.advertiseLink cmd.actor_id cmd.provider_id cmd.contract_id name vals],
       cb.advertiseLink cmd.actor_id cmd.provider_id cmd.contract_id name vals)

/-- Embedding of `LinkDelCommand` (src/ctl/mod.rs lines 178-196). -/
structure LinkDelCommand where
  opts : ConnectionOpts := {}
  actor_id : String
  contract_id : String
  link_name : Option String := none
deriving Repr, DecidableEq

/-- Embedding of `link_del` (src/ctl/mod.rs lines 620-630): remove a link definition,
substituting the link name "default" when none was supplied. -/
def link_del (cmd : LinkDelCommand) (env : CtlEnv) (cb : ClientBehavior) :
    List Call × Except String CtlOperationAck :=
  match ctl_client_from_opts cmd.opts env with
  | .error e => ([], .error e)
  | .ok _client =>
    let name := cmd.link_name.getD "default"
    ([Call.removeLink cmd.actor_id cmd.contract_id name],
     cb.removeLink cmd.actor_id cmd.contract_id name)

/-- A capability entry of a host manifest, as read by
`apply_manifest_providers` (src/ctl/mod.rs lines 867-872): an image
reference and an optional link name. -/
structure Capability where
  image_ref : String
  link_name : Option String := none
deriving Repr, DecidableEq

/-- A link entry of a host manifest, as read by `apply_manifest_linkdefs`
(src/ctl/mod.rs lines 829-837). -/
structure LinkEntry where
  actor : String
  provider_id : String
  contract_id : String
  link_name : Option String := none
  values : Option (List (String × String)) := none
deriving Repr, DecidableEq

/-- Embedding of `HostManifest` as consumed by `apply_manifest`: ordered actor
references, capability entries and link entries. -/
structure HostManifest where
  actors : List String := []
  capabilities : List Capability := []
  links : List LinkEntry := []
deriving Repr, DecidableEq

/-- Embedding of `apply_manifest_actors` (src/ctl/mod.rs lines 797-824): start every
actor of the manifest on the target host, in manifest order, recording one
result string per actor and never aborting; the Rust `Result` return is
always `Ok` since no failure propagates out of the loop. -/
def apply_manifest_actors (host_id : String) (cb : ClientBehavior) :
    List String → List Call × List String
  | [] => ([], [])
  | actor :: rest =>
    let msg :=
      match cb.actorStart host_id actor with
      | .ok ack =>
        if ack.accepted then "Instruction to start actor " ++ actor ++ " acknowledged."
        else "Instruction to start actor " ++ actor ++ " not acked: " ++ ack.error
      | .error e => "Failed to send start actor: " ++ e
    let tail := apply_manifest_actors host_id cb rest
    (Call.startActor host_id actor :: tail.1, msg :: tail.2)

/-- Embedding of `apply_manifest_providers` (src/ctl/mod.rs lines 860-896): start every
capability provider of the manifest on the target host, in manifest order,
recording one result string per entry and never aborting. -/
def apply_manifest_providers (host_id : String) (cb : ClientBehavior) :
    List Capability → List Call × List String
  | [] => ([], [])
  | cap :: rest =>
    let msg :=
      match cb.providerStart host_id cap.image_ref cap.link_name with
      | .ok ack =>
        if ack.accepted then
          "Instruction to start provider " ++ cap.image_ref ++ " acknowledged."
        else
          "Instruction to start provider " ++ cap.image_ref ++ " not acked: " ++ ack.error
      | .error e => "Failed to send start capability message: " ++ e
    let tail := apply_manifest_providers host_id cb rest
    (Call.startProvider host_id cap.image_ref cap.link_name :: tail.1, msg :: tail.2)

/-- Embedding of `apply_manifest_linkdefs` (src/ctl/mod.rs lines 826-858): advertise
every link definition of the manifest, in manifest order, defaulting the
link name to "default" and the value mapping to empty, recording one result
string per entry and never aborting. -/
def apply_manifest_linkdefs (cb : ClientBehavior) :
    List LinkEntry → List Call × List String
  | [] => ([], [])
  | ld :: rest =>
    let name := ld.link_name.getD "default"
    let vals := ld.values.getD []
    let msg :=
      match cb.advertiseLink ld.actor ld.provider_id ld.contract_id name vals with
      | .ok ack =>
        if ack.accepted then
          "Link def submission from " ++ ld.actor ++ " to " ++ ld.provider_id ++ " acknowledged."
        else
          "Link def submission from " ++ ld.actor ++ " to " ++ ld.provider_id ++
            " not acked: " ++ ack.error
      | .error e => "Failed to send link def: " ++ e
    let tail := apply_manifest_linkdefs cb rest
    (Call.advertiseLink ld.actor ld.provider_id ld.contract_id name vals :: tail.1,
     msg :: tail.2)

/-- Embedding of `apply_manifest` (src/ctl/mod.rs lines 784-795): build the client, load
the manifest (`load_manifest` stands for `HostManifest::from_path`, whose
parser lives outside src/), then apply actors, then providers, then link
definitions, concatenating the per-item results. -/
def apply_manifest (host_key : String) (opts : ConnectionOpts) (env : CtlEnv)
    (cb : ClientBehavior) (load_manifest : Except String HostManifest) :
    List Call × Except String (List String) :=
  match ctl_client_from_opts opts env with
  | .error e => ([], .error e)
  | .ok _client =>
    match load_manifest with
    | .error e => ([], .error ("Failed to load manifest: " ++ e))
    | .ok hm =>
      let ra := apply_manifest_actors host_key cb hm.actors
      let rp := apply_manifest_providers host_key cb hm.capabilities
      let rl := apply_manifest_linkdefs cb hm.links
      (ra.1 ++ rp.1 ++ rl.1, .ok (ra.2 ++ rp.2 ++ rl.2))

/-- Spec-side three-layer fallback: the explicit value if present, else the
context value, else the built-in default. -/
def layered {α : Type} (e c : Option α) (d : α) : α :=
  (e.orElse fun _ => c).getD d

/-- Spec-side two-layer fallback for option-valued fields whose built-in
default is absence. -/
def layered_opt {α : Type} (e c : Option α) : Option α :=
  e.orElse fun _ => c

theorem getD_orElse {α : Type} (e c : Option α) (d : α) :
    (e.orElse fun _ => c).getD d = e.getD (c.getD d) := by
  cases e <;> rfl

theorem isSome_ite_orElse {α : Type} (e c : Option α) :
    (if e.isSome then e else c) = e.orElse fun _ => c := by
  cases e <;> rfl

theorem map_getD_none_eq_bind {α β : Type} (ctx : Option β) (f : β → Option α) :
    (ctx.map f).getD none = ctx.bind f := by
  cases ctx <;> rfl

/-- Spec-side outcome description of one manifest actor entry, matching the
loop body of `apply_manifest_actors`. -/
def actor_outcome (host_id : String) (cb : ClientBehavior) (actor : String) : String :=
  match cb.actorStart host_id actor with
  | .ok ack =>
    if ack.accepted then "Instruction to start actor " ++ actor ++ " acknowledged."
    else "Instruction to start actor " ++ actor ++ " not acked: " ++ ack.error
  | .error e => "Failed to send start actor: " ++ e

/-- Spec-side outcome description of one manifest capability entry, matching
the loop body of `apply_manifest_providers`. -/
def cap_outcome (host_id : String) (cb : ClientBehavior) (cap : Capability) : String :=
  match cb.providerStart host_id cap.image_ref cap.link_name with
  | .ok ack =>
    if ack.accepted then
      "Instruction to start provider " ++ cap.image_ref ++ " acknowledged."
    else
      "Instruction to start provider " ++ cap.image_ref ++ " not acked: " ++ ack.error
  | .error e => "Failed to send start capability message: " ++ e

/-- Spec-side outcome description of one manifest link entry, matching the
loop body of `apply_manifest_linkdefs`. -/
def link_outcome (cb : ClientBehavior) (ld : LinkEntry) : String :=
  match cb.advertiseLink ld.actor ld.provider_id ld.contract_id
      (ld.link_name.getD "default") (ld.values.getD []) with
  | .ok ack =>
    if ack.accepted then
      "Link def submission from " ++ ld.actor ++ " to " ++ ld.provider_id ++ " acknowledged."
    else
      "Link def submission from " ++ ld.actor ++ " to " ++ ld.provider_id ++
        " not acked: " ++ ack.error
  | .error e => "Failed to send link def: " ++ e

theorem apply_manifest_actors_eq (host_id : String) (cb : ClientBehavior)
    (actors : List String) :
    apply_manifest_actors host_id cb actors =
      (actors.map fun actor => Call.startActor host_id actor,
       actors.map (actor_outcome host_id cb)) := by
  induction actors with
  | nil => rfl
  | cons a rest ih => simp [apply_manifest_actors, actor_outcome, ih]

theorem apply_manifest_providers_eq (host_id : String) (cb : ClientBehavior)
    (caps : List Capability) :
    apply_manifest_providers host_id cb caps =
      (caps.map fun cap => Call.startProvider host_id cap.image_ref cap.link_name,
       caps.map (cap_outcome host_id cb)) := by
  induction caps with
  | nil => rfl
  | cons cap rest ih => simp [apply_manifest_providers, cap_outcome, ih]

theorem apply_manifest_linkdefs_eq (cb : ClientBehavior) (lds : List LinkEntry) :
    apply_manifest_linkdefs cb lds =
      (lds.map fun ld =>
        Call.advertiseLink ld.actor ld.provider_id ld.contract_id
          (ld.link_name.getD "default") (ld.values.getD []),
       lds.map (link_outcome cb)) := by
  induction lds with
  | nil => rfl
  | cons ld rest ih => simp [apply_manifest_linkdefs, link_outcome, ih]

/-- An empty set of connection flags. -/
def opts_empty : ConnectionOpts := {}

/-- A sample environment: no context is discoverable and the NATS connection
always succeeds. -/
def env_ok : CtlEnv :=
  { load_context := fun _ => .error "no such context",
    context_dir := .error "no context directory",
    get_default_context := fun _ => .error "no default context",
    nats_client_from_opts := fun _ _ _ _ _ => .ok () }

/-- A successful acknowledgement. -/
def ack_ok : CtlOperationAck := { accepted := true, error := "" }

/-- A client behaviour returning a fixed auction response list and a fixed
acknowledgement for every mutating call. -/
def cb_const (auction : List AuctionAck) (ack : CtlOperationAck) : ClientBehavior :=
  { actorAuction := fun _ _ _ => .ok auction,
    providerAuction := fun _ _ _ _ => .ok auction,
    actorStart := fun _ _ => .ok ack,
    providerStart := fun _ _ _ => .ok ack,
    advertiseLink := fun _ _ _ _ _ => .ok ack,
    removeLink := fun _ _ _ => .ok ack }

/-- A client behaviour that rejects actor starts and accepts everything
else. -/
def cb_mixed : ClientBehavior :=
  { actorAuction := fun _ _ _ => .ok [],
    providerAuction := fun _ _ _ _ => .ok [],
    actorStart := fun _ _ => .ok { accepted := false, error := "busy" },
    providerStart := fun _ _ _ => .ok ack_ok,
    advertiseLink := fun _ _ _ _ _ => .ok ack_ok,
    removeLink := fun _ _ _ => .ok ack_ok }

/-- The well-formed host id of the source tests (src/ctl/mod.rs line 990). -/
def HOST_ID : String := "NCE7YHGI42RWEKBRDJZWXBEJJCFNE5YIWYMSTLGHQBEGFY55BKJ3EG3G"

/-- The client `ctl_client_from_opts` builds from empty flags, no context
and the overridden actor-start timeout. -/
def clientA : CtlClient :=
  { nats_host := DEFAULT_NATS_HOST, nats_port := DEFAULT_NATS_PORT,
    nats_jwt := none, nats_seed := none, nats_credsfile := none,
    ns_pfx := some DEFAULT_LATTICE_PFX, timeout_dur_ms := durationFromSecsMs 15000 }

/-- The client built from empty flags with the overridden provider-start
timeout. -/
def clientP : CtlClient :=
  { nats_host := DEFAULT_NATS_HOST, nats_port := DEFAULT_NATS_PORT,
    nats_jwt := none, nats_seed := none, nats_credsfile := none,
    ns_pfx := some DEFAULT_LATTICE_PFX, timeout_dur_ms := durationFromSecsMs 60000 }

/-- The client built from empty flags with the default timeout. -/
def client2k : CtlClient :=
  { nats_host := DEFAULT_NATS_HOST, nats_port := DEFAULT_NATS_PORT,
    nats_jwt := none, nats_seed := none, nats_credsfile := none,
    ns_pfx := some DEFAULT_LATTICE_PFX,
    timeout_dur_ms := durationFromSecsMs DEFAULT_NATS_TIMEOUT }

/-- C1: connection configuration is resolved field-by-field and
independently for every field (host, port, lattice namespace, timeout, jwt,
seed, credentials file): the explicit value wins when present, else the
value from the resolved context, else the built-in default; and every field
absent from both the explicit options and the context resolves to the
built-in default exactly. -/
theorem c1_config_field_resolution (opts : ConnectionOpts) (ctx : Option WashContext) :
    resolve_conn opts ctx =
      { timeout := layered opts.timeout_ms (ctx.map fun c => c.ctl_timeout) DEFAULT_NATS_TIMEOUT,
        lattice_pfx :=
          layered opts.lattice_pfx (ctx.map fun c => c.ctl_lattice_pfx) DEFAULT_LATTICE_PFX,
        ctl_host := layered opts.ctl_host (ctx.map fun c => c.ctl_host) DEFAULT_NATS_HOST,
        ctl_port :=
          layered opts.ctl_port (ctx.map fun c => toString c.ctl_port) DEFAULT_NATS_PORT,
        ctl_jwt := layered_opt opts.ctl_jwt (ctx.bind fun c => c.ctl_jwt),
        ctl_seed := layered_opt opts.ctl_seed (ctx.bind fun c => c.ctl_seed),
        ctl_credsfile := layered_opt opts.ctl_credsfile (ctx.bind fun c => c.ctl_credsfile) } ∧
    (opts.timeout_ms = none → ctx = none →
      (resolve_conn opts ctx).timeout = DEFAULT_NATS_TIMEOUT) ∧
    (opts.lattice_pfx = none → ctx = none →
      (resolve_conn opts ctx).lattice_pfx = DEFAULT_LATTICE_PFX) ∧
    (opts.ctl_host = none → ctx = none →
      (resolve_conn opts ctx).ctl_host = DEFAULT_NATS_HOST) ∧
    (opts.ctl_port = none → ctx = none →
      (resolve_conn opts ctx).ctl_port = DEFAULT_NATS_PORT) ∧
    (opts.ctl_jwt = none → (ctx.bind fun c => c.ctl_jwt) = none →
      (resolve_conn opts ctx).ctl_jwt = none) ∧
    (opts.ctl_seed = none → (ctx.bind fun c => c.ctl_seed) = none →
      (resolve_conn opts ctx).ctl_seed = none) ∧
    (opts.ctl_credsfile = none → (ctx.bind fun c => c.ctl_credsfile) = none →
      (resolve_conn opts ctx).ctl_credsfile = none) := by
  refine ⟨?_, ?_, ?_, ?_, ?_, ?_, ?_, ?_⟩
  · simp only [resolve_conn, layered, layered_opt, getD_orElse, isSome_ite_orElse,
      map_getD_none_eq_bind]
  · intro h1 h2; simp [resolve_conn, h1, h2]
  · intro h1 h2; simp [resolve_conn, h1, h2]
  · intro h1 h2; simp [resolve_conn, h1, h2]
  · intro h1 h2; simp [resolve_conn, h1, h2]
  · intro h1 h2; simp [resolve_conn, h1, ← map_getD_none_eq_bind] at h2 ⊢
    cases ctx with
    | none => simp
    | some c => simpa using h2
  · intro h1 h2; simp [resolve_conn, h1, ← map_getD_none_eq_bind] at h2 ⊢
    cases ctx with
    | none => simp
    | some c => simpa using h2
  · intro h1 h2; simp [resolve_conn, h1, ← map_getD_none_eq_bind] at h2 ⊢
    cases ctx with
    | none => simp
    | some c => simpa using h2

/-- Witness for C1 at the empty options and no context: every field is the
built-in default. -/
theorem c1_config_field_resolution_witness :
    (resolve_conn opts_empty none).timeout = DEFAULT_NATS_TIMEOUT ∧
    (resolve_conn opts_empty none).lattice_pfx = DEFAULT_LATTICE_PFX ∧
    (resolve_conn opts_empty none).ctl_host = DEFAULT_NATS_HOST ∧
    (resolve_conn opts_empty none).ctl_port = DEFAULT_NATS_PORT ∧
    (resolve_conn opts_empty none).ctl_jwt = none ∧
    (resolve_conn opts_empty none).ctl_seed = none ∧
    (resolve_conn opts_empty none).ctl_credsfile = none :=
  ⟨(c1_config_field_resolution opts_empty none).2.1 rfl rfl,
   (c1_config_field_resolution opts_empty none).2.2.1 rfl rfl,
   (c1_config_field_resolution opts_empty none).2.2.2.1 rfl rfl,
   (c1_config_field_resolution opts_empty none).2.2.2.2.1 rfl rfl,
   (c1_config_field_resolution opts_empty none).2.2.2.2.2.1 rfl rfl,
   (c1_config_field_resolution opts_empty none).2.2.2.2.2.2.1 rfl rfl,
   (c1_config_field_resolution opts_empty none).2.2.2.2.2.2.2 rfl rfl⟩

/-- Explicit connection flags carrying a failing context path. -/
def opts_bad_ctx : ConnectionOpts := { context := some "missing-context.json" }

/-- An environment in which every context load fails but the NATS connection
succeeds. -/
def env_ctx_load_fails : CtlEnv :=
  { load_context := fun _ => .error "boom",
    context_dir := .error "no context directory",
    get_default_context := fun _ => .error "no default context",
    nats_client_from_opts := fun _ _ _ _ _ => .ok () }

/-- Counterexample to C2: with an explicitly supplied context path whose
load fails, `ctl_client_from_opts` does not surface an error; it silently
builds a client from the built-in defaults. -/
theorem c2_counterexample :
    env_ctx_load_fails.load_context "missing-context.json" = .error "boom" ∧
    ctl_client_from_opts opts_bad_ctx env_ctx_load_fails =
      .ok { nats_host := DEFAULT_NATS_HOST, nats_port := DEFAULT_NATS_PORT,
            nats_jwt := none, nats_seed := none, nats_credsfile := none,
            ns_pfx := some DEFAULT_LATTICE_PFX,
            timeout_dur_ms := durationFromSecsMs DEFAULT_NATS_TIMEOUT } :=
  ⟨rfl, rfl⟩

/-- C2 as amended: an explicitly supplied context path that fails to load is
silently swallowed (`load_context(..).ok()`): no context resolves, default
context discovery is not attempted either, and the client is built exactly
as in context-less resolution. -/
theorem c2_explicit_context_failure_swallowed (opts : ConnectionOpts) (env : CtlEnv)
    (p : String) (hb : opts.context = some p)
    (hf : (env.load_context p).toOption = none) :
    ctxOf opts env = none ∧
    ctl_client_from_opts opts env = build_client opts none env := by
  have h : ctxOf opts env = none := by simp [ctxOf, hb, hf]
  exact ⟨h, by rw [ctl_client_from_opts, h]⟩

/-- Witness for C2 as amended, at a concrete failing explicit path. -/
theorem c2_explicit_context_failure_swallowed_witness :
    ctxOf opts_bad_ctx env_ctx_load_fails = none ∧
    ctl_client_from_opts opts_bad_ctx env_ctx_load_fails =
      build_client opts_bad_ctx none env_ctx_load_fails :=
  c2_explicit_context_failure_swallowed opts_bad_ctx env_ctx_load_fails
    "missing-context.json" rfl rfl

/-- C3: for a start-actor or start-provider invocation with no explicit
host id, zero auction responses fail the command with the no-suitable-host
error before any start call; with at least one response, the host of the
first response is selected without inspecting the rest and the start call
targets it. -/
theorem c3_auction_placement :
    (∀ (cmd : StartActorCommand) (env : CtlEnv) (cb : ClientBehavior)
        (c : CtlClient) (cons : List (String × String)),
      cmd.host_id = none →
      ctl_client_from_opts (start_actor_opts cmd.opts) env = .ok c →
      labels_vec_to_hashmap (cmd.constraints.getD []) = .ok cons →
      cb.actorAuction cmd.actor_ref cons
          (durationFromMillisMs (cmd.auction_timeout_ms.getD DEFAULT_NATS_TIMEOUT)) = .ok [] →
      start_actor cmd env cb =
        ([Call.actorAuction cmd.actor_ref cons
            (durationFromMillisMs (cmd.auction_timeout_ms.getD DEFAULT_NATS_TIMEOUT))],
         .error ("No suitable hosts found for actor " ++ cmd.actor_ref))) ∧
    (∀ (cmd : StartActorCommand) (env : CtlEnv) (cb : ClientBehavior)
        (c : CtlClient) (cons : List (String × String))
        (first : AuctionAck) (rest : List AuctionAck) (host : String),
      cmd.host_id = none →
      ctl_client_from_opts (start_actor_opts cmd.opts) env = .ok c →
      labels_vec_to_hashmap (cmd.constraints.getD []) = .ok cons →
      cb.actorAuction cmd.actor_ref cons
          (durationFromMillisMs (cmd.auction_timeout_ms.getD DEFAULT_NATS_TIMEOUT)) =
        .ok (first :: rest) →
      server_id_parse first.host_id = .ok host →
      start_actor cmd env cb =
        ([Call.actorAuction cmd.actor_ref cons
            (durationFromMillisMs (cmd.auction_timeout_ms.getD DEFAULT_NATS_TIMEOUT)),
          Call.startActor host cmd.actor_ref],
         cb.actorStart host cmd.actor_ref)) ∧
    (∀ (cmd : StartProviderCommand) (env : CtlEnv) (cb : ClientBehavior)
        (c : CtlClient) (cons : List (String × String)),
      cmd.host_id = none →
      ctl_client_from_opts (start_provider_opts cmd.opts) env = .ok c →
      labels_vec_to_hashmap (cmd.constraints.getD []) = .ok cons →
      cb.providerAuction cmd.provider_ref cmd.link_name cons
          (durationFromMillisMs (cmd.auction_timeout_ms.getD DEFAULT_NATS_TIMEOUT)) = .ok [] →
      start_provider cmd env cb =
        ([Call.providerAuction cmd.provider_ref cmd.link_name cons
            (durationFromMillisMs (cmd.auction_timeout_ms.getD DEFAULT_NATS_TIMEOUT))],
         .error ("No suitable hosts found for provider " ++ cmd.provider_ref))) ∧
    (∀ (cmd : StartProviderCommand) (env : CtlEnv) (cb : ClientBehavior)
        (c : CtlClient) (cons : List (String × String))
        (first : AuctionAck) (rest : List AuctionAck) (host : String),
      cmd.host_id = none →
      ctl_client_from_opts (start_provider_opts cmd.opts) env = .ok c →
      labels_vec_to_hashmap (cmd.constraints.getD []) = .ok cons →
      cb.providerAuction cmd.provider_ref cmd.link_name cons
          (durationFromMillisMs (cmd.auction_timeout_ms.getD DEFAULT_NATS_TIMEOUT)) =
        .ok (first :: rest) →
      server_id_parse first.host_id = .ok host →
      start_provider cmd env cb =
        ([Call.providerAuction cmd.provider_ref cmd.link_name cons
            (durationFromMillisMs (cmd.auction_timeout_ms.getD DEFAULT_NATS_TIMEOUT)),
          Call.startProvider host cmd.provider_ref (some cmd.link_name)],
         cb.providerStart host cmd.provider_ref (some cmd.link_name))) := by
  refine ⟨?_, ?_, ?_, ?_⟩
  · intro cmd env cb c cons hh he hc ha
    simp [start_actor, he, hh, hc, ha]
  · intro cmd env cb c cons first rest host hh he hc ha hp
    simp [start_actor, he, hh, hc, ha, hp]
  · intro cmd env cb c cons hh he hc ha
    simp [start_provider, he, hh, hc, ha]
  · intro cmd env cb c cons first rest host hh he hc ha hp
    simp [start_provider, he, hh, hc, ha, hp]

/-- Witness for C3: a concrete empty-auction failure and a concrete
first-response selection, for both actor and provider starts. -/
theorem c3_auction_placement_witness :
    start_actor { actor_ref := "aref" } env_ok (cb_const [] ack_ok) =
      ([Call.actorAuction "aref" [] 2000],
       .error ("No suitable hosts found for actor " ++ "aref")) ∧
    start_actor { actor_ref := "aref" } env_ok
        (cb_const [{ host_id := HOST_ID }, { host_id := "H2" }] ack_ok) =
      ([Call.actorAuction "aref" [] 2000, Call.startActor HOST_ID "aref"], .ok ack_ok) ∧
    start_provider { provider_ref := "pref" } env_ok (cb_const [] ack_ok) =
      ([Call.providerAuction "pref" "default" [] 2000],
       .error ("No suitable hosts found for provider " ++ "pref")) ∧
    start_provider { provider_ref := "pref" } env_ok
        (cb_const [{ host_id := HOST_ID }, { host_id := "H2" }] ack_ok) =
      ([Call.providerAuction "pref" "default" [] 2000,
        Call.startProvider HOST_ID "pref" (some "default")], .ok ack_ok) :=
  ⟨c3_auction_placement.1 { actor_ref := "aref" } env_ok (cb_const [] ack_ok)
      clientA [] rfl rfl rfl rfl,
   c3_auction_placement.2.1 { actor_ref := "aref" } env_ok
      (cb_const [{ host_id := HOST_ID }, { host_id := "H2" }] ack_ok)
      clientA [] { host_id := HOST_ID } [{ host_id := "H2" }] HOST_ID
      rfl rfl rfl rfl rfl,
   c3_auction_placement.2.2.1 { provider_ref := "pref" } env_ok (cb_const [] ack_ok)
      clientP [] rfl rfl rfl rfl,
   c3_auction_placement.2.2.2 { provider_ref := "pref" } env_ok
      (cb_const [{ host_id := HOST_ID }, { host_id := "H2" }] ack_ok)
      clientP [] { host_id := HOST_ID } [{ host_id := "H2" }] HOST_ID
      rfl rfl rfl rfl rfl⟩

/-- C4: applying a manifest issues all actor starts in manifest order, then
all provider starts in manifest order, then all link puts in manifest
order, whatever each call returns. -/
theorem c4_manifest_order (host_key : String) (opts : ConnectionOpts) (env : CtlEnv)
    (cb : ClientBehavior) (c : CtlClient) (hm : HostManifest)
    (lm : Except String HostManifest)
    (henv : ctl_client_from_opts opts env = .ok c) (hlm : lm = .ok hm) :
    (apply_manifest host_key opts env cb lm).1 =
      (hm.actors.map fun actor => Call.startActor host_key actor) ++
      (hm.capabilities.map fun cap =>
        Call.startProvider host_key cap.image_ref cap.link_name) ++
      (hm.links.map fun ld =>
        Call.advertiseLink ld.actor ld.provider_id ld.contract_id
          (ld.link_name.getD "default") (ld.values.getD [])) := by
  subst hlm
  simp [apply_manifest, henv, apply_manifest_actors_eq, apply_manifest_providers_eq,
    apply_manifest_linkdefs_eq]

/-- A sample manifest: one actor, one capability, one link. -/
def hm_sample : HostManifest :=
  { actors := ["wasmcloud.azurecr.io/actor:v1"],
    capabilities := [{ image_ref := "wasmcloud.azurecr.io/provider:v1" }],
    links := [{ actor := "MAAA", provider_id := "VBBB",
                contract_id := "wasmcloud:provider" }] }

/-- Witness for C4 at a concrete manifest and client behaviour. -/
theorem c4_manifest_order_witness :
    (apply_manifest HOST_ID opts_empty env_ok cb_mixed (.ok hm_sample)).1 =
      (hm_sample.actors.map fun actor => Call.startActor HOST_ID actor) ++
      (hm_sample.capabilities.map fun cap =>
        Call.startProvider HOST_ID cap.image_ref cap.link_name) ++
      (hm_sample.links.map fun ld =>
        Call.advertiseLink ld.actor ld.provider_id ld.contract_id
          (ld.link_name.getD "default") (ld.values.getD [])) :=
  c4_manifest_order HOST_ID opts_empty env_ok cb_mixed client2k hm_sample
    (.ok hm_sample) rfl rfl

/-- C5: every manifest item is attempted exactly once and yields exactly one
recorded outcome, in order, whatever each call returns: the batch result is
the per-item outcome descriptions of the actors, capabilities and links in
manifest order, and its length is the total item count. -/
theorem c5_manifest_outcomes (host_key : String) (opts : ConnectionOpts) (env : CtlEnv)
    (cb : ClientBehavior) (c : CtlClient) (hm : HostManifest)
    (lm : Except String HostManifest)
    (henv : ctl_client_from_opts opts env = .ok c) (hlm : lm = .ok hm) :
    (apply_manifest host_key opts env cb lm).2 =
      .ok (hm.actors.map (actor_outcome host_key cb) ++
           hm.capabilities.map (cap_outcome host_key cb) ++
           hm.links.map (link_outcome cb)) ∧
    (apply_manifest host_key opts env cb lm).2.map List.length =
      .ok (hm.actors.length + hm.capabilities.length + hm.links.length) := by
  subst hlm
  constructor
  · simp [apply_manifest, henv, apply_manifest_actors_eq, apply_manifest_providers_eq,
      apply_manifest_linkdefs_eq]
  · simp [apply_manifest, henv, apply_manifest_actors_eq, apply_manifest_providers_eq,
      apply_manifest_linkdefs_eq, Except.map, Nat.add_assoc]

/-- Witness for C5 at a concrete manifest whose actor start is rejected and
whose link put is accepted. -/
theorem c5_manifest_outcomes_witness :
    (apply_manifest HOST_ID opts_empty env_ok cb_mixed (.ok hm_sample)).2 =
      .ok (hm_sample.actors.map (actor_outcome HOST_ID cb_mixed) ++
           hm_sample.capabilities.map (cap_outcome HOST_ID cb_mixed) ++
           hm_sample.links.map (link_outcome cb_mixed)) ∧
    (apply_manifest HOST_ID opts_empty env_ok cb_mixed (.ok hm_sample)).2.map List.length =
      .ok (hm_sample.actors.length + hm_sample.capabilities.length +
           hm_sample.links.length) :=
  c5_manifest_outcomes HOST_ID opts_empty env_ok cb_mixed client2k hm_sample
    (.ok hm_sample) rfl rfl

/-- C6: a start-actor or start-provider invocation with an explicit host id
uses that host id unchanged and issues no auction call; the supplied
constraints are ignored entirely, even when non-empty. -/
theorem c6_explicit_host :
    (∀ (cmd : StartActorCommand) (env : CtlEnv) (cb : ClientBehavior)
        (c : CtlClient) (host : String),
      cmd.host_id = some host →
      ctl_client_from_opts (start_actor_opts cmd.opts) env = .ok c →
      start_actor cmd env cb =
        ([Call.startActor host cmd.actor_ref], cb.actorStart host cmd.actor_ref)) ∧
    (∀ (cmd : StartActorCommand) (env : CtlEnv) (cb : ClientBehavior)
        (host : String) (cs1 cs2 : Option (List String)),
      cmd.host_id = some host →
      start_actor { cmd with constraints := cs1 } env cb =
        start_actor { cmd with constraints := cs2 } env cb) ∧
    (∀ (cmd : StartProviderCommand) (env : CtlEnv) (cb : ClientBehavior)
        (c : CtlClient) (host : String),
      cmd.host_id = some host →
      ctl_client_from_opts (start_provider_opts cmd.opts) env = .ok c →
      start_provider cmd env cb =
        ([Call.startProvider host cmd.provider_ref (some cmd.link_name)],
         cb.providerStart host cmd.provider_ref (some cmd.link_name))) ∧
    (∀ (cmd : StartProviderCommand) (env : CtlEnv) (cb : ClientBehavior)
        (host : String) (cs1 cs2 : Option (List String)),
      cmd.host_id = some host →
      start_provider { cmd with constraints := cs1 } env cb =
        start_provider { cmd with constraints := cs2 } env cb) := by
  refine ⟨?_, ?_, ?_, ?_⟩
  · intro cmd env cb c host hh he
    simp [start_actor, he, hh]
  · intro cmd env cb host cs1 cs2 hh
    cases he : ctl_client_from_opts (start_actor_opts cmd.opts) env with
    | error e => simp [start_actor, he]
    | ok c => simp [start_actor, he, hh]
  · intro cmd env cb c host hh he
    simp [start_provider, he, hh]
  · intro cmd env cb host cs1 cs2 hh
    cases he : ctl_client_from_opts (start_provider_opts cmd.opts) env with
    | error e => simp [start_provider, he]
    | ok c => simp [start_provider, he, hh]

/-- A sample start-actor command with an explicit host and non-empty
constraints. -/
def cmdA_host : StartActorCommand :=
  { actor_ref := "aref", host_id := some HOST_ID, constraints := some ["arch=x86_64"] }

/-- A sample start-provider command with an explicit host and non-empty
constraints. -/
def cmdP_host : StartProviderCommand :=
  { provider_ref := "pref", host_id := some HOST_ID, constraints := some ["arch=x86_64"] }

/-- Witness for C6: explicit host with non-empty (even malformed)
constraints, for both actor and provider starts. -/
theorem c6_explicit_host_witness :
    start_actor cmdA_host env_ok (cb_const [] ack_ok) =
      ([Call.startActor HOST_ID "aref"], .ok ack_ok) ∧
    start_actor { cmdA_host with constraints := some ["malformed"] } env_ok
        (cb_const [] ack_ok) =
      start_actor { cmdA_host with constraints := none } env_ok (cb_const [] ack_ok) ∧
    start_provider cmdP_host env_ok (cb_const [] ack_ok) =
      ([Call.startProvider HOST_ID "pref" (some "default")], .ok ack_ok) ∧
    start_provider { cmdP_host with constraints := some ["malformed"] } env_ok
        (cb_const [] ack_ok) =
      start_provider { cmdP_host with constraints := none } env_ok (cb_const [] ack_ok) :=
  ⟨c6_explicit_host.1 cmdA_host env_ok (cb_const [] ack_ok) clientA HOST_ID rfl rfl,
   c6_explicit_host.2.1 cmdA_host env_ok (cb_const [] ack_ok) HOST_ID
      (some ["malformed"]) none rfl,
   c6_explicit_host.2.2.1 cmdP_host env_ok (cb_const [] ack_ok) clientP HOST_ID rfl rfl,
   c6_explicit_host.2.2.2 cmdP_host env_ok (cb_const [] ack_ok) HOST_ID
      (some ["malformed"]) none rfl⟩

/-- C7 evaluated at the failing input: with no explicit response timeout the
start functions substitute 15000 (actor) and 60000 (provider) into the
millisecond field, but `ctl_client_from_opts` passes that value to
`Duration::from_secs`, so the client awaits 15000000 ms (15000 s), not the
15 s (15000 ms) the claim and the field documentation state. -/
theorem c7_timeout_units :
    (start_actor_opts opts_empty).timeout_ms = some 15000 ∧
    (start_provider_opts opts_empty).timeout_ms = some 60000 ∧
    (ctl_client_from_opts (start_actor_opts opts_empty) env_ok).map
        (fun c => c.timeout_dur_ms) = .ok (durationFromSecsMs 15000) ∧
    (ctl_client_from_opts (start_provider_opts opts_empty) env_ok).map
        (fun c => c.timeout_dur_ms) = .ok (durationFromSecsMs 60000) ∧
    durationFromSecsMs 15000 ≠ durationFromMillisMs 15000 ∧
    durationFromSecsMs 60000 ≠ durationFromMillisMs 60000 :=
  ⟨rfl, rfl, rfl, rfl, by decide, by decide⟩

/-- Counterexample to C8: the default auction window is
`DEFAULT_NATS_TIMEOUT` for actor auctions and also for provider auctions,
so the provider default is not strictly longer than the actor default. -/
theorem c8_counterexample :
    (start_actor { actor_ref := "aref" } env_ok (cb_const [] ack_ok)).1 =
      [Call.actorAuction "aref" [] DEFAULT_NATS_TIMEOUT] ∧
    (start_provider { provider_ref := "pref" } env_ok (cb_const [] ack_ok)).1 =
      [Call.providerAuction "pref" "default" [] DEFAULT_NATS_TIMEOUT] ∧
    ¬ DEFAULT_NATS_TIMEOUT < DEFAULT_NATS_TIMEOUT :=
  ⟨rfl, rfl, by decide⟩

/-- C8 as amended: the default auction window is the same for actor and
provider auctions, namely `DEFAULT_NATS_TIMEOUT` (2000 ms), and an
explicitly supplied auction timeout always overrides it: whichever way the
auction turns out, the issued auction call carries the window
`auction_timeout_ms.getD DEFAULT_NATS_TIMEOUT`. -/
theorem c8_auction_window (cmd : StartActorCommand) (cmdP : StartProviderCommand)
    (env : CtlEnv) (cb : ClientBehavior) (c cP : CtlClient)
    (cons consP : List (String × String))
    (hh : cmd.host_id = none)
    (he : ctl_client_from_opts (start_actor_opts cmd.opts) env = .ok c)
    (hc : labels_vec_to_hashmap (cmd.constraints.getD []) = .ok cons)
    (hhP : cmdP.host_id = none)
    (heP : ctl_client_from_opts (start_provider_opts cmdP.opts) env = .ok cP)
    (hcP : labels_vec_to_hashmap (cmdP.constraints.getD []) = .ok consP) :
    (start_actor cmd env cb).1.head? =
      some (Call.actorAuction cmd.actor_ref cons
        (durationFromMillisMs (cmd.auction_timeout_ms.getD DEFAULT_NATS_TIMEOUT))) ∧
    (start_provider cmdP env cb).1.head? =
      some (Call.providerAuction cmdP.provider_ref cmdP.link_name consP
        (durationFromMillisMs (cmdP.auction_timeout_ms.getD DEFAULT_NATS_TIMEOUT))) := by
  constructor
  · cases ha : cb.actorAuction cmd.actor_ref cons
        (durationFromMillisMs (cmd.auction_timeout_ms.getD DEFAULT_NATS_TIMEOUT)) with
    | error e => simp [start_actor, he, hh, hc, ha]
    | ok hosts =>
      cases hosts with
      | nil => simp [start_actor, he, hh, hc, ha]
      | cons first rest =>
        cases hp : server_id_parse first.host_id with
        | error e => simp [start_actor, he, hh, hc, ha, hp]
        | ok host => simp [start_actor, he, hh, hc, ha, hp]
  · cases ha : cb.providerAuction cmdP.provider_ref cmdP.link_name consP
        (durationFromMillisMs (cmdP.auction_timeout_ms.getD DEFAULT_NATS_TIMEOUT)) with
    | error e => simp [start_provider, heP, hhP, hcP, ha]
    | ok hosts =>
      cases hosts with
      | nil => simp [start_provider, heP, hhP, hcP, ha]
      | cons first rest =>
        cases hp : server_id_parse first.host_id with
        | error e => simp [start_provider, heP, hhP, hcP, ha, hp]
        | ok host => simp [start_provider, heP, hhP, hcP, ha, hp]

/-- The client built from an explicit 500 ms timeout (no override applies). -/
def client500 : CtlClient :=
  { nats_host := DEFAULT_NATS_HOST, nats_port := DEFAULT_NATS_PORT,
    nats_jwt := none, nats_seed := none, nats_credsfile := none,
    ns_pfx := some DEFAULT_LATTICE_PFX, timeout_dur_ms := durationFromSecsMs 500 }

/-- A sample start-actor command with explicit auction and response
timeouts. -/
def cmdA_t7500 : StartActorCommand :=
  { actor_ref := "aref", auction_timeout_ms := some 7500,
    opts := { timeout_ms := some 500 } }

/-- A sample start-provider command with explicit auction and response
timeouts. -/
def cmdP_t7500 : StartProviderCommand :=
  { provider_ref := "pref", auction_timeout_ms := some 7500,
    opts := { timeout_ms := some 500 } }

/-- Witness for C8 as amended: with no explicit auction timeout both
auction calls carry the 2000 ms default window; with an explicit 7500 ms
auction timeout both carry 7500. -/
theorem c8_auction_window_witness :
    ((start_actor { actor_ref := "aref" } env_ok (cb_const [] ack_ok)).1.head? =
      some (Call.actorAuction "aref" [] 2000) ∧
     (start_provider { provider_ref := "pref" } env_ok (cb_const [] ack_ok)).1.head? =
      some (Call.providerAuction "pref" "default" [] 2000)) ∧
    ((start_actor cmdA_t7500 env_ok (cb_const [] ack_ok)).1.head? =
      some (Call.actorAuction "aref" [] 7500) ∧
     (start_provider cmdP_t7500 env_ok (cb_const [] ack_ok)).1.head? =
      some (Call.providerAuction "pref" "default" [] 7500)) :=
  ⟨c8_auction_window { actor_ref := "aref" } { provider_ref := "pref" } env_ok
      (cb_const [] ack_ok) clientA clientP [] [] rfl rfl rfl rfl rfl rfl,
   c8_auction_window cmdA_t7500 cmdP_t7500
      env_ok (cb_const [] ack_ok) client500 client500 [] [] rfl rfl rfl rfl rfl rfl⟩

/-- C9: a link-put (or link-del) with no explicit link name substitutes and
sends the link name "default"; a manifest link entry with no link name is
sent with the name "default" and, with no value mapping, with the empty
mapping. -/
theorem c9_link_name_default :
    (∀ (cmd : LinkPutCommand) (env : CtlEnv) (cb : ClientBehavior)
        (c : CtlClient) (vals : List (String × String)),
      cmd.link_name = none →
      ctl_client_from_opts cmd.opts env = .ok c →
      labels_vec_to_hashmap cmd.values = .ok vals →
      link_put cmd env cb =
        ([Call.advertiseLink cmd.actor_id cmd.provider_id cmd.contract_id "default" vals],
         cb.advertiseLink cmd.actor_id cmd.provider_id cmd.contract_id "default" vals)) ∧
    (∀ (cmd : LinkDelCommand) (env : CtlEnv) (cb : ClientBehavior) (c : CtlClient),
      cmd.link_name = none →
      ctl_client_from_opts cmd.opts env = .ok c →
      link_del cmd env cb =
        ([Call.removeLink cmd.actor_id cmd.contract_id "default"],
         cb.removeLink cmd.actor_id cmd.contract_id "default")) ∧
    (∀ (cb : ClientBehavior) (ld : LinkEntry),
      ld.link_name = none → ld.values = none →
      apply_manifest_linkdefs cb [ld] =
        ([Call.advertiseLink ld.actor ld.provider_id ld.contract_id "default" []],
         [link_outcome cb ld])) := by
  refine ⟨?_, ?_, ?_⟩
  · intro cmd env cb c vals hn he hv
    simp [link_put, he, hv, hn]
  · intro cmd env cb c hn he
    simp [link_del, he, hn]
  · intro cb ld hn hv
    simp [apply_manifest_linkdefs_eq, hn, hv]

/-- A sample link-put command with no link name. -/
def cmd_link_put : LinkPutCommand :=
  { actor_id := "MAAA", provider_id := "VBBB", contract_id := "wasmcloud:provider",
    values := ["THING=foo"] }

/-- A sample link-del command with no link name. -/
def cmd_link_del : LinkDelCommand :=
  { actor_id := "MAAA", contract_id := "wasmcloud:provider" }

/-- A sample manifest link entry with no link name and no values. -/
def ld_plain : LinkEntry :=
  { actor := "MAAA", provider_id := "VBBB", contract_id := "wasmcloud:provider" }

/-- Witness for C9 at concrete link operations with no link name. -/
theorem c9_link_name_default_witness :
    link_put cmd_link_put env_ok (cb_const [] ack_ok) =
      ([Call.advertiseLink "MAAA" "VBBB" "wasmcloud:provider" "default"
          [("THING", "foo")]],
       .ok ack_ok) ∧
    link_del cmd_link_del env_ok (cb_const [] ack_ok) =
      ([Call.removeLink "MAAA" "wasmcloud:provider" "default"], .ok ack_ok) ∧
    apply_manifest_linkdefs (cb_const [] ack_ok) [ld_plain] =
      ([Call.advertiseLink "MAAA" "VBBB" "wasmcloud:provider" "default" []],
       [link_outcome (cb_const [] ack_ok) ld_plain]) :=
  ⟨c9_link_name_default.1 cmd_link_put env_ok (cb_const [] ack_ok) client2k
      [("THING", "foo")] rfl rfl rfl,
   c9_link_name_default.2.1 cmd_link_del env_ok (cb_const [] ack_ok) client2k rfl rfl,
   c9_link_name_default.2.2 (cb_const [] ack_ok) ld_plain rfl rfl⟩

/-- C10: when placement is resolved by auction, the first auction response
host id is re-parsed as a server public-key identifier before use; if it is
malformed the whole start command fails with that parse error and no start
call is issued, and the remaining responses are never consulted, whatever
they contain. -/
theorem c10_malformed_first_auction_host :
    (∀ (cmd : StartActorCommand) (env : CtlEnv) (cb : ClientBehavior)
        (c : CtlClient) (cons : List (String × String))
        (first : AuctionAck) (rest : List AuctionAck) (e : String),
      cmd.host_id = none →
      ctl_client_from_opts (start_actor_opts cmd.opts) env = .ok c →
      labels_vec_to_hashmap (cmd.constraints.getD []) = .ok cons →
      cb.actorAuction cmd.actor_ref cons
          (durationFromMillisMs (cmd.auction_timeout_ms.getD DEFAULT_NATS_TIMEOUT)) =
        .ok (first :: rest) →
      server_id_parse first.host_id = .error e →
      start_actor cmd env cb =
        ([Call.actorAuction cmd.actor_ref cons
            (durationFromMillisMs (cmd.auction_timeout_ms.getD DEFAULT_NATS_TIMEOUT))],
         .error e)) ∧
    (∀ (cmd : StartProviderCommand) (env : CtlEnv) (cb : ClientBehavior)
        (c : CtlClient) (cons : List (String × String))
        (first : AuctionAck) (rest : List AuctionAck) (e : String),
      cmd.host_id = none →
      ctl_client_from_opts (start_provider_opts cmd.opts) env = .ok c →
      labels_vec_to_hashmap (cmd.constraints.getD []) = .ok cons →
      cb.providerAuction cmd.provider_ref cmd.link_name cons
          (durationFromMillisMs (cmd.auction_timeout_ms.getD DEFAULT_NATS_TIMEOUT)) =
        .ok (first :: rest) →
      server_id_parse first.host_id = .error e →
      start_provider cmd env cb =
        ([Call.providerAuction cmd.provider_ref cmd.link_name cons
            (durationFromMillisMs (cmd.auction_timeout_ms.getD DEFAULT_NATS_TIMEOUT))],
         .error e)) := by
  constructor
  · intro cmd env cb c cons first rest e hh he hc ha hp
    simp [start_actor, he, hh, hc, ha, hp]
  · intro cmd env cb c cons first rest e hh he hc ha hp
    simp [start_provider, he, hh, hc, ha, hp]

/-- Witness for C10: the first response is malformed while the second is
well-formed; the command still fails with the parse error of the first. -/
theorem c10_malformed_first_auction_host_witness :
    start_actor { actor_ref := "aref" } env_ok
        (cb_const [{ host_id := "bad" }, { host_id := HOST_ID }] ack_ok) =
      ([Call.actorAuction "aref" [] 2000],
       .error ("invalid server id: " ++ "bad")) ∧
    start_provider { provider_ref := "pref" } env_ok
        (cb_const [{ host_id := "bad" }, { host_id := HOST_ID }] ack_ok) =
      ([Call.providerAuction "pref" "default" [] 2000],
       .error ("invalid server id: " ++ "bad")) :=
  ⟨c10_malformed_first_auction_host.1 { actor_ref := "aref" } env_ok
      (cb_const [{ host_id := "bad" }, { host_id := HOST_ID }] ack_ok)
      clientA [] { host_id := "bad" } [{ host_id := HOST_ID }] ("invalid server id: " ++ "bad")
      rfl rfl rfl rfl rfl,
   c10_malformed_first_auction_host.2 { provider_ref := "pref" } env_ok
      (cb_const [{ host_id := "bad" }, { host_id := HOST_ID }] ack_ok)
      clientP [] { host_id := "bad" } [{ host_id := HOST_ID }] ("invalid server id: " ++ "bad")
      rfl rfl rfl rfl rfl⟩

end Wash
